import Mathlib

/-
  Verification development for the accessibility-scan backend
  (src/app/app.py, src/app/openai_service.py, src/app/db_service.py,
  src/app/selenium_service.py).

  The Python code is shallowly embedded: pure string processing becomes
  Lean functions on lists of characters, request/response dictionaries
  become an inductive value type, exceptions become an explicit error
  type, and the outcomes of the three external collaborators (Selenium
  scanner, OpenAI advisor, Mongo store) are supplied as an environment.
-/

/- ===================================================================
   Character-list utilities mirroring the Python string operations used
   by openai_service.parse_suggestions_to_json.  Lean strings in this
   toolchain are wrappers around List Char, so these functions are the
   computational content of the corresponding str methods.
   =================================================================== -/

/-- The newline character, the separator of suggestions_text.split used
at openai_service.py line 19. -/
def nlChar : Char := Char.ofNat 10

/-- Python str.startswith restricted to full pattern / subject lists:
startsWithL pat s is true when pat is a prefix of s. -/
def startsWithL : List Char → List Char → Bool
  | [], _ => true
  | _ :: _, [] => false
  | p :: ps, c :: cs => p == c && startsWithL ps cs

/-- Whether tag occurs as a contiguous substring of s (at any position).
Used to phrase hypotheses about payloads that do not contain their own
tag. -/
def containsTag (tag : List Char) : List Char → Bool
  | [] => startsWithL tag []
  | c :: rest => startsWithL tag (c :: rest) || containsTag tag rest

/-- Worker for replaceAllL.  The Nat argument counts characters still to
be skipped because they belong to an already-matched occurrence of the
tag; Python str.replace resumes scanning after a matched occurrence
(non-overlapping, leftmost first), which is exactly what the skip
counter implements. -/
def replAux (tag : List Char) : List Char → Nat → List Char
  | [], _ => []
  | _ :: rest, Nat.succ k => replAux tag rest k
  | c :: rest, 0 =>
    if startsWithL tag (c :: rest) && !tag.isEmpty then
      replAux tag rest (tag.length - 1)
    else
      c :: replAux tag rest 0

/-- Python s.replace(tag, "") for a non-empty tag: every non-overlapping
occurrence of tag is removed, scanning left to right.  (The parser only
ever calls this with the three non-empty literal tags.) -/
def replaceAllL (tag s : List Char) : List Char :=
  replAux tag s 0

/-- Drop leading characters satisfying Char.isWhitespace. -/
def dropSpacesL : List Char → List Char
  | [] => []
  | c :: rest => if c.isWhitespace then dropSpacesL rest else c :: rest

/-- Python str.strip(): surrounding whitespace removed from both ends. -/
def stripL (s : List Char) : List Char :=
  (dropSpacesL (dropSpacesL s).reverse).reverse

/-- Python suggestions_text.split newline-separator semantics: splitting
on a single character, keeping empty groups, so that the empty input
yields one empty line. -/
def splitOnChar (sep : Char) : List Char → List (List Char)
  | [] => [[]]
  | c :: rest =>
    match splitOnChar sep rest with
    | [] => [[]]
    | grp :: grps => if c == sep then [] :: grp :: grps else (c :: grp) :: grps

/- ===================================================================
   The suggestion parser, openai_service.parse_suggestions_to_json
   (openai_service.py lines 11-31).  The in-progress dict
   current_suggestion is a record of three optional fields, one per key
   the source ever assigns; a missing key of the Python dict is a none
   field here.
   =================================================================== -/

/-- One suggestion dict as built by the parser.  Field names are the
source dict keys; an absent dict key is none. -/
structure SuggestionEntry where
  problema : Option String
  solucion : Option String
  ejemplo_codigo : Option String
deriving DecidableEq, Repr

/-- The literal current_suggestion = {} of openai_service.py line 16. -/
def emptySuggestion : SuggestionEntry :=
  { problema := none, solucion := none, ejemplo_codigo := none }

/-- The dict returned by parse_suggestions_to_json: its single key
violations holding the ordered entry list. -/
structure SuggestionSet where
  violations : List SuggestionEntry
deriving DecidableEq, Repr

/-- The tag of openai_service.py line 22. -/
def tagP : List Char := String.toList "Problema:"

/-- The tag of openai_service.py line 24. -/
def tagS : List Char := String.toList "Solución:"

/-- The tag of openai_service.py line 26. -/
def tagE : List Char := String.toList "Ejemplo de Código:"

/-- The per-line loop of parse_suggestions_to_json, lines 21-29: a
Problema line overwrites the problema field, a Solución line the
solucion field, an Ejemplo de Código line sets ejemplo_codigo, appends
the in-progress entry and restarts from the empty dict; all other lines
are ignored.  Each payload is the line with all occurrences of its tag
removed (str.replace) and surrounding whitespace stripped. -/
def parseLines : SuggestionEntry → List SuggestionEntry → List (List Char) → List SuggestionEntry
  | _, acc, [] => acc
  | cur, acc, l :: ls =>
    if startsWithL tagP l then
      parseLines { cur with problema := some (String.mk (stripL (replaceAllL tagP l))) } acc ls
    else if startsWithL tagS l then
      parseLines { cur with solucion := some (String.mk (stripL (replaceAllL tagS l))) } acc ls
    else if startsWithL tagE l then
      parseLines emptySuggestion
        (acc ++ [ { cur with ejemplo_codigo := some (String.mk (stripL (replaceAllL tagE l))) } ]) ls
    else
      parseLines cur acc ls

/-- openai_service.parse_suggestions_to_json: split the advisor text on
newlines, run the tagged-line loop starting from the empty dict and the
empty accumulator, and wrap the collected entries as the violations
field. -/
def parse_suggestions_to_json (suggestions_text : String) : SuggestionSet :=
  { violations := parseLines emptySuggestion [] (splitOnChar nlChar (String.toList suggestions_text)) }

/- ===================================================================
   Python values flowing through the Flask endpoint: request fields,
   the per-URL summary dicts and the response body.  Dicts are
   association lists in key-insertion order.
   =================================================================== -/

/-- A JSON-like Python value. -/
inductive PyVal where
  | null
  | str (s : String)
  | num (n : Int)
  | bool (b : Bool)
  | list (xs : List PyVal)
  | obj (fields : List (String × PyVal))
deriving Repr

/-- Lookup in an association list with a default, the semantics of
Python dict.get(key, default). -/
def assocGetD : List (String × PyVal) → String → PyVal → PyVal
  | [], _, d => d
  | (k, v) :: rest, key, d => if k = key then v else assocGetD rest key d

/-- Python dict.get(key) on a dict value: absent keys (and non-dict
receivers) give None.  Models data.get and the summary-field reads. -/
def PyVal.get : PyVal → String → PyVal
  | .obj fs, k => assocGetD fs k PyVal.null
  | _, _ => PyVal.null

/-- Whether an object value carries the given key at all. -/
def PyVal.hasKey : PyVal → String → Bool
  | .obj fs, k => fs.any (fun p => p.1 == k)
  | _, _ => false

/-- Python truthiness of the values above: None, empty strings, zero,
False, empty lists and empty dicts are falsy.  This is the meaning of
the bare not urls test at app.py line 76. -/
def PyVal.truthy : PyVal → Bool
  | .null => false
  | .str s => !s.isEmpty
  | .num n => n != 0
  | .bool b => b
  | .list xs => !xs.isEmpty
  | .obj fs => !fs.isEmpty

/-- Python isinstance(v, list). -/
def PyVal.isList : PyVal → Bool
  | .list _ => true
  | _ => false

/-- The elements of a list value (the iteration for url in urls). -/
def PyVal.elems : PyVal → List PyVal
  | .list xs => xs
  | _ => []

/- ===================================================================
   Exceptions and the collaborator environment.
   =================================================================== -/

/-- The exception values that can arise inside process_url. -/
inductive PyExc where
  | typeError (msg : String)
  | attributeError (msg : String)
  | seleniumExn (msg : String)
  | mongoExn (msg : String)
deriving Repr, DecidableEq

/-- Python str(e) for the modelled exceptions. -/
def PyExc.message : PyExc → String
  | .typeError m => m
  | .attributeError m => m
  | .seleniumExn m => m
  | .mongoExn m => m

/-- Outcome of the OpenAI chat call inside generate_suggestions: either
the stripped-to-be content string, or an exception raised anywhere in
the try block (openai_service.py lines 35-66). -/
inductive AdvisorResult where
  | ok (content : String)
  | exn (msg : String)

/-- What generate_suggestions returns: on success the parsed suggestion
dict, on any internal exception the dict with the single key error
(openai_service.py line 70). -/
inductive SuggestionsJson where
  | parsed (s : SuggestionSet)
  | errorObj (msg : String)
deriving Repr

/-- Canonical object form of a suggestion entry: only the keys the
parser actually assigned are present, mirroring the Python dict.  (Key
order is fixed here as problema, solucion, ejemplo_codigo; the Python
dict would use assignment order, which the claims never depend on.) -/
def SuggestionEntry.toPyVal (e : SuggestionEntry) : PyVal :=
  PyVal.obj
    ((match e.problema with
      | some p => [ ( "problema", PyVal.str p ) ]
      | none => []) ++
     (match e.solucion with
      | some s => [ ( "solucion", PyVal.str s ) ]
      | none => []) ++
     (match e.ejemplo_codigo with
      | some c => [ ( "ejemplo_codigo", PyVal.str c ) ]
      | none => []))

/-- Object form of the generate_suggestions return value. -/
def SuggestionsJson.toPyVal : SuggestionsJson → PyVal
  | .parsed s => PyVal.obj [ ( "violations", PyVal.list (s.violations.map SuggestionEntry.toPyVal) ) ]
  | .errorObj m => PyVal.obj [ ( "error", PyVal.str m ) ]

/-- openai_service.generate_suggestions(violations, url), lines 34-70.
The violations and url parameters only shape the prompt sent to the
external OpenAI service, so the outcome of that call is taken as the
advisor environment: on success the content is stripped and parsed, and
every exception inside the try block is caught and turned into the
error dict, so the function itself never raises. -/
def generate_suggestions (_violations : PyVal) (_url : PyVal) (advisor : AdvisorResult) : SuggestionsJson :=
  match advisor with
  | .ok content => .parsed (parse_suggestions_to_json (String.mk (stripL (String.toList content))))
  | .exn msg => .errorObj msg

/-- The call expression at app.py line 92 is generate_suggestions(violations)
with a single argument, while openai_service.py line 34 declares
def generate_suggestions(violations, url) with two required positional
parameters.  In Python such a call raises TypeError before the callee
body runs, so inside process_url the advisor logic above is never
reached. -/
def call_generate_suggestions (_violations : PyVal) : Except PyExc SuggestionsJson :=
  .error (.typeError "generate_suggestions missing 1 required positional argument: url")

/-- The value selenium_service.analyze_url returns on success
(selenium_service.py line 34): the axe results dict, the domain, the
fresh unique id and the results path. -/
structure ScanOk where
  results : List (String × PyVal)
  domain : String
  unique_id : String
  results_path : String

/-- Per-URL collaborator environment: the outcome of the scanner call,
the outcome the OpenAI call would have, the outcome of the Mongo
insertion (its payload being the str() image of whatever insert_one
returned), and the datetime.now().isoformat() timestamp. -/
structure Env where
  scan : Except PyExc ScanOk
  advisor : AdvisorResult
  insert : Except PyExc String
  nowIso : String

/- ===================================================================
   process_url and the /analyze endpoint, app.py lines 27-160.
   =================================================================== -/

/-- A value returned from process_url: either a bare summary dict or
one of the (dict, 500) tuples of the except branches. -/
inductive ProcReturn where
  | plain (v : PyVal)
  | withStatus (v : PyVal) (code : Nat)
deriving Repr

/-- The try block of process_url (app.py lines 86-115): scan, read the
violations sub-list, call generate_suggestions (which raises TypeError,
see call_generate_suggestions), assemble the Mongo record, insert it
and build the bounded summary dict.  The second component records the
Mongo insertions actually performed. -/
def process_url_try (env : Env) (url : PyVal) : Except PyExc ProcReturn × List PyVal :=
  match env.scan with
  | .error e => ( .error e, [] )
  | .ok sr =>
    let violations := assocGetD sr.results "violations" (PyVal.list [])
    match call_generate_suggestions violations with
    | .error e => ( .error e, [] )
    | .ok suggestions_json =>
      let result_record : PyVal := PyVal.obj
        [ ( "url", url ),
          ( "domain", PyVal.str sr.domain ),
          ( "unique_id", PyVal.str sr.unique_id ),
          ( "results_path", PyVal.str sr.results_path ),
          ( "results", PyVal.obj sr.results ),
          ( "suggestions", suggestions_json.toPyVal ),
          ( "date", PyVal.str env.nowIso ) ]
      match env.insert with
      | .error e => ( .error e, [] )
      | .ok inserted_id =>
        ( .ok (.plain (PyVal.obj
            [ ( "url", url ),
              ( "unique_id", PyVal.str sr.unique_id ),
              ( "_id", PyVal.str inserted_id ),
              ( "date", PyVal.str env.nowIso ),
              ( "suggestions", suggestions_json.toPyVal ) ])),
          [ result_record ] )

/-- The AttributeError that evaluating the first except clause raises:
db_service.MongoService declares no attribute MongoInsertError (and
selenium_service.SeleniumService declares no SeleniumError). -/
def mongoAttrError : PyExc :=
  .attributeError "MongoService object has no attribute MongoInsertError"

/-- process_url (app.py lines 85-136): the try body followed by the
except chain.  Because MongoService has no MongoInsertError attribute,
whenever any exception escapes the try block, Python evaluates the
first clause except mongo_service.MongoInsertError and that evaluation
itself raises AttributeError, which propagates out of process_url
without consulting the remaining clauses; none of the three handlers
(DB_ERROR, ANALYSIS_ERROR, UNEXPECTED_ERROR) can ever run. -/
def process_url (env : Env) (url : PyVal) : Except PyExc ProcReturn × List PyVal :=
  match process_url_try env url with
  | ( .ok r, ins ) => ( .ok r, ins )
  | ( .error _, ins ) => ( .error mongoAttrError, ins )

/-- The collection loop body at app.py lines 141-153: a normally
returned dict is appended as is, a (dict, code) tuple contributes its
first component, and an exception escaping process_url is caught and
appended as the PROCESSING_ERROR dict, which carries no url key. -/
def collectOutcome : Except PyExc ProcReturn → PyVal
  | .ok (.plain v) => v
  | .ok (.withStatus v _) => v
  | .error e => PyVal.obj
      [ ( "error", PyVal.str ( "Error procesando la URL: " ++ e.message ) ),
        ( "code", PyVal.str "PROCESSING_ERROR" ) ]

/-- A Flask response: the jsonify body together with the HTTP status
code. -/
structure HttpResponse where
  body : PyVal
  code : Nat

/-- The 400 response of app.py lines 77-81.  (The source message quotes
the field name as 'urls'; the quotes are omitted here.) -/
def invalidInputResponse : HttpResponse :=
  { body := PyVal.obj
      [ ( "status", PyVal.str "error" ),
        ( "message", PyVal.str "El campo urls debe ser una lista válida." ),
        ( "code", PyVal.str "INVALID_INPUT" ) ],
    code := 400 }

/-- The /analyze endpoint (app.py lines 27-160) on a parsed JSON body.
Returns the HTTP response together with the list of URLs submitted to
the thread pool as Job Units.  The thread pool collects results in
completion order; the model collects them in submission order, a
permutation which none of the verified claims depend on, since every
future contributes exactly one appended entry either way. -/
def analyze (env : PyVal → Env) (reqBody : List (String × PyVal)) : HttpResponse × List PyVal :=
  let urls := assocGetD reqBody "urls" PyVal.null
  if !urls.truthy || !urls.isList then
    ( invalidInputResponse, [] )
  else
    let xs := urls.elems
    let results_summary := xs.map (fun u => collectOutcome (process_url (env u) u).1)
    ( { body := PyVal.obj
          [ ( "status", PyVal.str "success" ),
            ( "message", PyVal.str "Análisis completado" ),
            ( "data", PyVal.list results_summary ) ],
        code := 200 },
      xs )

/- ===================================================================
   Concrete collaborator environments used by the evaluation theorems.
   =================================================================== -/

/-- A concrete successful scanner outcome: an axe report carrying one
violation entry. -/
def scanOkA : ScanOk :=
  { results := [ ( "violations", PyVal.list [ PyVal.obj [ ( "id", PyVal.str "image-alt" ), ( "impact", PyVal.str "critical" ) ] ] ),
                 ( "passes", PyVal.list [] ) ],
    domain := "a.example",
    unique_id := "3f2b6a2e",
    results_path := "./results/a.example_3f2b6a2e_accessibility_results.json" }

/-- Environment in which the scanner raises and both remaining
collaborators would succeed if reached. -/
def envScanFail : Env :=
  { scan := .error (.seleniumExn "session not created"),
    advisor := .exn "api error",
    insert := .ok "66f0c2",
    nowIso := "2026-02-01T10:00:00" }

/-- Environment in which the scanner succeeds, the OpenAI call would
raise, and the store insertion would succeed. -/
def envAdvisorFail : Env :=
  { scan := .ok scanOkA,
    advisor := .exn "rate limit exceeded",
    insert := .ok "66f0c3",
    nowIso := "2026-02-01T10:01:00" }

/-- Environment in which all three collaborators would succeed. -/
def envAllOk : Env :=
  { scan := .ok scanOkA,
    advisor := .ok "Problema: p\nSolución: s\nEjemplo de Código: c",
    insert := .ok "66f0c4",
    nowIso := "2026-02-01T10:02:00" }

/-- A line handled by one of the three tagged branches of the parser
loop. -/
def isTagLine (l : List Char) : Bool :=
  startsWithL tagP l || startsWithL tagS l || startsWithL tagE l

/- ===================================================================
   Shared lemmas about the string utilities and the parser loop.
   =================================================================== -/

lemma startsWithL_self_append (p r : List Char) : startsWithL p (p ++ r) = true := by
  induction p with
  | nil => rfl
  | cons a ps ih => simp [startsWithL, ih]

lemma replAux_not_contains (tag : List Char) : ∀ s : List Char,
    containsTag tag s = false → replAux tag s 0 = s := by
  intro s
  induction s with
  | nil => intro _; rfl
  | cons c rest ih =>
    intro h
    have h2 : (startsWithL tag (c :: rest) || containsTag tag rest) = false := h
    rw [Bool.or_eq_false_iff] at h2
    simp [replAux, h2.1, ih h2.2]

lemma replAux_skip (tag : List Char) : ∀ u s : List Char,
    replAux tag (u ++ s) u.length = replAux tag s 0 := by
  intro u
  induction u with
  | nil => intro s; rfl
  | cons a u2 ih => intro s; simpa [replAux] using ih s

/-- Removing a non-empty tag from a list that consists of one leading
occurrence of the tag followed by a tag-free remainder leaves exactly
the remainder: the computational content of prefix stripping via
str.replace. -/
lemma replaceAll_tag_prefix {tag : List Char} (hne : tag ≠ []) {x : List Char}
    (hx : containsTag tag x = false) : replaceAllL tag (tag ++ x) = x := by
  cases tag with
  | nil => exact absurd rfl hne
  | cons t ts =>
    show replAux (t :: ts) (t :: (ts ++ x)) 0 = x
    have hsw : startsWithL (t :: ts) (t :: (ts ++ x)) = true := startsWithL_self_append (t :: ts) x
    simp only [replAux, hsw, List.isEmpty, Bool.and_true, Bool.not_false, if_true]
    have h2 : replAux (t :: ts) (ts ++ x) ((t :: ts).length - 1) = replAux (t :: ts) x 0 := by
      simpa using replAux_skip (t :: ts) ts x
    simp only [h2]
    exact replAux_not_contains (t :: ts) x hx

lemma sw_pp (X : List Char) : startsWithL tagP (tagP ++ X) = true := rfl
lemma sw_ss (Y : List Char) : startsWithL tagS (tagS ++ Y) = true := rfl
lemma sw_ee (Z : List Char) : startsWithL tagE (tagE ++ Z) = true := rfl
lemma sw_ps (Y : List Char) : startsWithL tagP (tagS ++ Y) = false := rfl
lemma sw_pe (Z : List Char) : startsWithL tagP (tagE ++ Z) = false := rfl
lemma sw_se (Z : List Char) : startsWithL tagS (tagE ++ Z) = false := rfl

/-- Lines that match none of the three tags are ignored by the loop. -/
lemma parseLines_skip {ls : List (List Char)} (h : ∀ l ∈ ls, isTagLine l = false)
    (cur : SuggestionEntry) (acc : List SuggestionEntry) (rest : List (List Char)) :
    parseLines cur acc (ls ++ rest) = parseLines cur acc rest := by
  induction ls with
  | nil => rfl
  | cons l ls2 ih =>
    have hl : isTagLine l = false := h l (List.mem_cons_self l ls2)
    unfold isTagLine at hl
    rw [Bool.or_eq_false_iff] at hl
    obtain ⟨hl1, hl3⟩ := hl
    rw [Bool.or_eq_false_iff] at hl1
    obtain ⟨hl1, hl2⟩ := hl1
    rw [List.cons_append]
    rw [show parseLines cur acc (l :: (ls2 ++ rest)) = parseLines cur acc (ls2 ++ rest) by
      simp [parseLines, hl1, hl2, hl3]]
    exact ih (fun l2 h2 => h l2 (List.mem_cons_of_mem l h2))

/-- A trailing run of untagged lines leaves the accumulator unchanged:
the in-progress entry is discarded, never emitted. -/
lemma parseLines_nontag {ls : List (List Char)} (h : ∀ l ∈ ls, isTagLine l = false)
    (cur : SuggestionEntry) (acc : List SuggestionEntry) :
    parseLines cur acc ls = acc := by
  have h2 := parseLines_skip h cur acc []
  rw [List.append_nil] at h2
  rw [h2]
  rfl

lemma parseLines_stepP (cur : SuggestionEntry) (acc : List SuggestionEntry)
    (X : List Char) (ls : List (List Char)) :
    parseLines cur acc ((tagP ++ X) :: ls)
      = parseLines { cur with problema := some (String.mk (stripL (replaceAllL tagP (tagP ++ X)))) } acc ls := by
  simp [parseLines, sw_pp]

lemma parseLines_stepS (cur : SuggestionEntry) (acc : List SuggestionEntry)
    (Y : List Char) (ls : List (List Char)) :
    parseLines cur acc ((tagS ++ Y) :: ls)
      = parseLines { cur with solucion := some (String.mk (stripL (replaceAllL tagS (tagS ++ Y)))) } acc ls := by
  simp [parseLines, sw_ps, sw_ss]

lemma parseLines_stepE (cur : SuggestionEntry) (acc : List SuggestionEntry)
    (Z : List Char) (ls : List (List Char)) :
    parseLines cur acc ((tagE ++ Z) :: ls)
      = parseLines emptySuggestion
          (acc ++ [ { cur with ejemplo_codigo := some (String.mk (stripL (replaceAllL tagE (tagE ++ Z)))) } ]) ls := by
  simp [parseLines, sw_pe, sw_se, sw_ee]

/-- A line that starts with the Ejemplo tag cannot also start with the
Problema or Solución tag, their first characters being distinct. -/
lemma startsWithL_tagE_excl {l : List Char} (h : startsWithL tagE l = true) :
    startsWithL tagP l = false ∧ startsWithL tagS l = false := by
  cases l with
  | nil => exact absurd h (by decide)
  | cons c cs =>
    have h1 : (('E' == c) && startsWithL (String.toList "jemplo de Código:") cs) = true := h
    rw [Bool.and_eq_true] at h1
    have hc : ('E' : Char) = c := eq_of_beq h1.1
    subst hc
    exact ⟨rfl, rfl⟩

/-- The loop appends exactly one entry per line starting with the
Ejemplo de Código tag. -/
lemma parseLines_length : ∀ (ls : List (List Char)) (cur : SuggestionEntry) (acc : List SuggestionEntry),
    (parseLines cur acc ls).length
      = acc.length + List.countP (fun l => startsWithL tagE l) ls := by
  intro ls
  induction ls with
  | nil => intro cur acc; simp [parseLines]
  | cons l ls2 ih =>
    intro cur acc
    by_cases hP : startsWithL tagP l = true
    · have hE : startsWithL tagE l = false := by
        cases hE2 : startsWithL tagE l
        · rfl
        · exact absurd hP (by simp [(startsWithL_tagE_excl hE2).1])
      simp [parseLines, hP, ih, List.countP_cons, hE]
    · by_cases hS : startsWithL tagS l = true
      · have hE : startsWithL tagE l = false := by
          cases hE2 : startsWithL tagE l
          · rfl
          · exact absurd hS (by simp [(startsWithL_tagE_excl hE2).2])
        simp [parseLines, hP, hS, ih, List.countP_cons, hE]
      · by_cases hE : startsWithL tagE l = true
        · simp [parseLines, hP, hS, hE, ih, List.countP_cons]
          omega
        · simp [parseLines, hP, hS, hE, ih, List.countP_cons]

lemma splitOnChar_no_sep (sep : Char) : ∀ s : List Char,
    (∀ c ∈ s, (c == sep) = false) → splitOnChar sep s = [s] := by
  intro s
  induction s with
  | nil => intro _; rfl
  | cons c rest ih =>
    intro h
    have hc : (c == sep) = false := h c (List.mem_cons_self c rest)
    have hr := ih (fun d hd => h d (List.mem_cons_of_mem c hd))
    simp [splitOnChar, hr, hc]

/- ===================================================================
   Claim theorems.
   =================================================================== -/

/-- C1: for every request whose urls field is a non-empty list of n
URLs, the batch summary returned by the /analyze orchestrator contains
exactly n outcome entries, one per submitted Job Unit, none dropped and
none duplicated, whatever the per-URL collaborator environments do. -/
theorem C1_batch_cardinality (env : PyVal → Env) (reqBody : List (String × PyVal)) (xs : List PyVal)
    (hurls : assocGetD reqBody "urls" PyVal.null = PyVal.list xs) (hne : xs ≠ []) :
    (analyze env reqBody).1.body.get "data"
        = PyVal.list (xs.map (fun u => collectOutcome (process_url (env u) u).1)) ∧
    ((analyze env reqBody).1.body.get "data").elems.length = xs.length := by
  obtain ⟨a, as, rfl⟩ := List.exists_cons_of_ne_nil hne
  constructor
  · simp [analyze, hurls, PyVal.truthy, PyVal.isList, PyVal.get, PyVal.elems, assocGetD]
  · simp [analyze, hurls, PyVal.truthy, PyVal.isList, PyVal.get, PyVal.elems, assocGetD]

/-- Witness for C1 at a concrete two-URL batch in which every Job Unit
fails. -/
theorem C1_batch_cardinality_witness :
    ((analyze (fun _ => envScanFail)
        [ ( "urls", PyVal.list [ PyVal.str "https://a.example", PyVal.str "https://b.example" ] ) ]).1.body.get "data").elems.length = 2 :=
  (C1_batch_cardinality (fun _ => envScanFail)
    [ ( "urls", PyVal.list [ PyVal.str "https://a.example", PyVal.str "https://b.example" ] ) ]
    [ PyVal.str "https://a.example", PyVal.str "https://b.example" ] rfl (by simp)).2

/-- C2: for every request whose urls field is missing, not a list, or
an empty list, /analyze answers with the INVALID_INPUT 400 response and
submits zero Job Units; the result is a constant independent of the
collaborator environment, so no Scanner, Advisor or Store call is made
before this validation. -/
theorem C2_invalid_input_rejected (env : PyVal → Env) (reqBody : List (String × PyVal))
    (h : assocGetD reqBody "urls" PyVal.null = PyVal.null ∨
         assocGetD reqBody "urls" PyVal.null = PyVal.list [] ∨
         (assocGetD reqBody "urls" PyVal.null).isList = false) :
    analyze env reqBody = ( invalidInputResponse, [] ) := by
  rcases h with h | h | h
  · simp [analyze, h, PyVal.truthy, PyVal.isList]
  · simp [analyze, h, PyVal.truthy, PyVal.isList]
  · simp [analyze, h]

/-- Witness for C2 at the three concrete invalid shapes: key absent,
empty list, and a non-list value. -/
theorem C2_invalid_input_rejected_witness :
    analyze (fun _ => envScanFail) [] = ( invalidInputResponse, [] ) ∧
    analyze (fun _ => envScanFail) [ ( "urls", PyVal.list [] ) ] = ( invalidInputResponse, [] ) ∧
    analyze (fun _ => envScanFail) [ ( "urls", PyVal.str "https://a.example" ) ] = ( invalidInputResponse, [] ) :=
  ⟨ C2_invalid_input_rejected _ _ (Or.inl rfl),
    C2_invalid_input_rejected _ _ (Or.inr (Or.inl rfl)),
    C2_invalid_input_rejected _ _ (Or.inr (Or.inr rfl)) ⟩

/-- C3: the claim says a scanner failure yields a Failure outcome
tagged ANALYSIS_ERROR for that URL with no store insertion.  Evaluating
the code at a URL whose scanner invocation raises shows what actually
happens: no insertion indeed occurs, but the exception escapes through
the broken except chain (MongoService has no MongoInsertError
attribute), so the collected outcome is the PROCESSING_ERROR dict, not
an ANALYSIS_ERROR one, and it carries no url key. -/
theorem C3_scanner_failure_evaluated :
    (process_url envScanFail (PyVal.str "https://bad.example")).2 = [] ∧
    (process_url envScanFail (PyVal.str "https://bad.example")).1 = Except.error mongoAttrError ∧
    (collectOutcome (process_url envScanFail (PyVal.str "https://bad.example")).1).get "code"
      = PyVal.str "PROCESSING_ERROR" ∧
    ¬ ((collectOutcome (process_url envScanFail (PyVal.str "https://bad.example")).1).get "code"
      = PyVal.str "ANALYSIS_ERROR") := by
  refine ⟨ rfl, rfl, rfl, ?_ ⟩
  simp [collectOutcome, process_url, process_url_try, envScanFail, PyVal.get, assocGetD,
    mongoAttrError, PyExc.message]

/-- C4: the claim says a Job Unit whose scanner succeeds but whose
advisor fails still ends in Success with an error-marked SuggestionSet
and a store insertion.  The callee generate_suggestions does catch the
advisor failure and return the error dict, but the call site passes one
argument to the two-parameter function, so the call raises TypeError
before that logic runs; the broken except chain turns it into an
escaping AttributeError, the collected outcome is PROCESSING_ERROR and
no insertion happens. -/
theorem C4_advisor_failure_evaluated :
    generate_suggestions (PyVal.list []) (PyVal.str "https://a.example") (AdvisorResult.exn "rate limit exceeded")
      = SuggestionsJson.errorObj "rate limit exceeded" ∧
    (process_url envAdvisorFail (PyVal.str "https://a.example")).1 = Except.error mongoAttrError ∧
    (process_url envAdvisorFail (PyVal.str "https://a.example")).2 = [] ∧
    (collectOutcome (process_url envAdvisorFail (PyVal.str "https://a.example")).1).get "code"
      = PyVal.str "PROCESSING_ERROR" :=
  ⟨ rfl, rfl, rfl, rfl ⟩

/-- C5 counterexample: a text containing exactly one well-formed tagged
triple whose Problema payload contains the tag again.  The claim
predicts the problem field is the payload with only the tag prefix
stripped, but str.replace removes every occurrence of the tag, so the
parser yields a different entry. -/
theorem C5_counterexample :
    (parse_suggestions_to_json "Problema: a Problema: b\nSolución: s\nEjemplo de Código: c").violations
      = [ { problema := some "a  b", solucion := some "s", ejemplo_codigo := some "c" } ] ∧
    ¬ ((parse_suggestions_to_json "Problema: a Problema: b\nSolución: s\nEjemplo de Código: c").violations
      = [ { problema := some "a Problema: b", solucion := some "s", ejemplo_codigo := some "c" } ]) := by
  constructor
  · decide
  · decide

/-- C5 amended: for every input text whose newline-split lines are one
Problema line with payload X, then one Solución line with payload Y,
then one Ejemplo de Código line with payload Z, the other lines
untagged, and where no payload contains its own tag as a substring, the
parser yields exactly one entry holding the three payloads with the tag
prefix stripped and surrounding whitespace trimmed.  (When a payload
contains its own tag, every occurrence is removed, not just the
prefix.) -/
theorem C5_parser_round_trip_amended (text : String)
    (pre mid1 mid2 post : List (List Char)) (X Y Z : List Char)
    (hsplit : splitOnChar nlChar (String.toList text)
        = pre ++ (tagP ++ X) :: (mid1 ++ (tagS ++ Y) :: (mid2 ++ (tagE ++ Z) :: post)))
    (hpre : ∀ l ∈ pre, isTagLine l = false)
    (hm1 : ∀ l ∈ mid1, isTagLine l = false)
    (hm2 : ∀ l ∈ mid2, isTagLine l = false)
    (hpost : ∀ l ∈ post, isTagLine l = false)
    (hX : containsTag tagP X = false)
    (hY : containsTag tagS Y = false)
    (hZ : containsTag tagE Z = false) :
    (parse_suggestions_to_json text).violations
      = [ { problema := some (String.mk (stripL X)),
            solucion := some (String.mk (stripL Y)),
            ejemplo_codigo := some (String.mk (stripL Z)) } ] := by
  show parseLines emptySuggestion [] (splitOnChar nlChar (String.toList text)) = _
  rw [hsplit, parseLines_skip hpre, parseLines_stepP,
      replaceAll_tag_prefix (by decide) hX,
      parseLines_skip hm1, parseLines_stepS,
      replaceAll_tag_prefix (by decide) hY,
      parseLines_skip hm2, parseLines_stepE,
      replaceAll_tag_prefix (by decide) hZ,
      parseLines_nontag hpost]
  rfl

/-- Witness for the amended C5 at a concrete three-line text. -/
theorem C5_parser_round_trip_amended_witness :
    (parse_suggestions_to_json "Problema: hola\nSolución: usa alt\nEjemplo de Código: img etiqueta").violations
      = [ { problema := some "hola", solucion := some "usa alt", ejemplo_codigo := some "img etiqueta" } ] :=
  C5_parser_round_trip_amended "Problema: hola\nSolución: usa alt\nEjemplo de Código: img etiqueta"
    [] [] [] []
    (String.toList " hola") (String.toList " usa alt") (String.toList " img etiqueta")
    (by decide) (by simp) (by simp) (by simp) (by simp) (by decide) (by decide) (by decide)

/-- C6 counterexample: an entry closed by an Ejemplo de Código line
while missing its problem and solution fields is appended with those
dict keys absent, not with empty-string defaults as the claim
states. -/
theorem C6_counterexample :
    (parse_suggestions_to_json "Ejemplo de Código: c").violations
      = [ { problema := none, solucion := none, ejemplo_codigo := some "c" } ] ∧
    ¬ ((parse_suggestions_to_json "Ejemplo de Código: c").violations
      = [ { problema := some "", solucion := some "", ejemplo_codigo := some "c" } ]) := by
  constructor
  · decide
  · decide

/-- C6 amended: an entry is appended to the parser output exactly when
an Ejemplo de Código line closes it (so the entry count equals the
number of such lines, and a trailing in-progress entry that never
receives its closing line is discarded), and an entry closed while its
problem and solution fields were never set is appended with those
fields absent, not defaulted to empty strings. -/
theorem C6_entry_close_amended :
    (∀ text : String,
        (parse_suggestions_to_json text).violations.length
          = List.countP (fun l => startsWithL tagE l) (splitOnChar nlChar (String.toList text))) ∧
    (∀ Z : List Char, (∀ c ∈ Z, (c == nlChar) = false) → containsTag tagE Z = false →
        (parse_suggestions_to_json (String.mk (tagE ++ Z))).violations
          = [ { problema := none, solucion := none,
                ejemplo_codigo := some (String.mk (stripL Z)) } ]) := by
  constructor
  · intro text
    show (parseLines emptySuggestion [] (splitOnChar nlChar (String.toList text))).length = _
    simpa using parseLines_length (splitOnChar nlChar (String.toList text)) emptySuggestion []
  · intro Z hZnl hZ
    have hsplit : splitOnChar nlChar (String.toList (String.mk (tagE ++ Z))) = [tagE ++ Z] := by
      apply splitOnChar_no_sep
      intro c hc
      have hc2 : c ∈ tagE ++ Z := hc
      rw [List.mem_append] at hc2
      cases hc2 with
      | inl h =>
        have hall : List.all tagE (fun c => c != nlChar) = true := by decide
        have h2 := List.all_eq_true.mp hall c h
        simpa using h2
      | inr h => exact hZnl c h
    show parseLines emptySuggestion [] (splitOnChar nlChar (String.toList (String.mk (tagE ++ Z)))) = _
    rw [hsplit, parseLines_stepE, replaceAll_tag_prefix (by decide) hZ]
    rfl

/-- Witness for the amended C6: a text with one closing line among
untagged and trailing-open material has exactly one entry, and a lone
closing line produces the entry with absent problem and solution
fields. -/
theorem C6_entry_close_amended_witness :
    (parse_suggestions_to_json "Solución: s\nEjemplo de Código: c\nProblema: p").violations.length = 1 ∧
    (parse_suggestions_to_json "Ejemplo de Código: c").violations
      = [ { problema := none, solucion := none, ejemplo_codigo := some "c" } ] :=
  ⟨ C6_entry_close_amended.1 "Solución: s\nEjemplo de Código: c\nProblema: p",
    C6_entry_close_amended.2 (String.toList " c") (by decide) (by decide) ⟩

/-- C7: the claim says every outcome in the batch summary carries the
url field of its input URL.  Evaluating the endpoint at a one-URL batch
whose scanner raises shows the outcome actually collected is the
PROCESSING_ERROR dict appended by the completion loop, which carries no
url key at all: the url-tagged handlers of process_url are unreachable
because evaluating the first except clause raises AttributeError. -/
theorem C7_outcome_url_missing_evaluated :
    (analyze (fun _ => envScanFail) [ ( "urls", PyVal.list [ PyVal.str "https://bad.example" ] ) ]).1.body.get "data"
      = PyVal.list [ PyVal.obj
          [ ( "error", PyVal.str "Error procesando la URL: MongoService object has no attribute MongoInsertError" ),
            ( "code", PyVal.str "PROCESSING_ERROR" ) ] ] ∧
    List.all ((analyze (fun _ => envScanFail) [ ( "urls", PyVal.list [ PyVal.str "https://bad.example" ] ) ]).1.body.get "data").elems
      (fun v => !(v.hasKey "url")) = true :=
  ⟨ rfl, rfl ⟩

/-- C8: the claim describes the bounded projection carried by the
Success summary of every successful Job Unit.  Evaluating process_url
in an environment where scanner, advisor and store would all succeed
shows no Job Unit can ever succeed: the generate_suggestions call
raises TypeError (missing url argument), the broken except chain turns
it into an escaping AttributeError, and no record is inserted, so the
success summary of app.py lines 109-115 is unreachable. -/
theorem C8_success_summary_unreachable_evaluated :
    (process_url envAllOk (PyVal.str "https://a.example")).1 = Except.error mongoAttrError ∧
    (process_url envAllOk (PyVal.str "https://a.example")).2 = [] :=
  ⟨ rfl, rfl ⟩

/-- C10: every request that passes input validation gets an HTTP 200
response whose top level reads status success and message Análisis
completado, whatever the Job Units do; per-URL failures appear only
inside the data list. -/
theorem C10_http_always_success (env : PyVal → Env) (reqBody : List (String × PyVal)) (xs : List PyVal)
    (hurls : assocGetD reqBody "urls" PyVal.null = PyVal.list xs) (hne : xs ≠ []) :
    (analyze env reqBody).1.code = 200 ∧
    (analyze env reqBody).1.body.get "status" = PyVal.str "success" ∧
    (analyze env reqBody).1.body.get "message" = PyVal.str "Análisis completado" ∧
    (analyze env reqBody).1.body.get "data"
      = PyVal.list (xs.map (fun u => collectOutcome (process_url (env u) u).1)) := by
  obtain ⟨a, as, rfl⟩ := List.exists_cons_of_ne_nil hne
  refine ⟨ ?_, ?_, ?_, ?_ ⟩ <;>
    simp [analyze, hurls, PyVal.truthy, PyVal.isList, PyVal.get, PyVal.elems, assocGetD]

/-- Witness for C10 at a one-URL batch whose only Job Unit fails: the
HTTP layer still reports 200 and success, with the failure visible only
inside data. -/
theorem C10_http_always_success_witness :
    (analyze (fun _ => envScanFail) [ ( "urls", PyVal.list [ PyVal.str "https://x.example" ] ) ]).1.code = 200 ∧
    (analyze (fun _ => envScanFail) [ ( "urls", PyVal.list [ PyVal.str "https://x.example" ] ) ]).1.body.get "status"
      = PyVal.str "success" ∧
    (analyze (fun _ => envScanFail) [ ( "urls", PyVal.list [ PyVal.str "https://x.example" ] ) ]).1.body.get "message"
      = PyVal.str "Análisis completado" ∧
    (analyze (fun _ => envScanFail) [ ( "urls", PyVal.list [ PyVal.str "https://x.example" ] ) ]).1.body.get "data"
      = PyVal.list [ PyVal.obj
          [ ( "error", PyVal.str "Error procesando la URL: MongoService object has no attribute MongoInsertError" ),
            ( "code", PyVal.str "PROCESSING_ERROR" ) ] ] :=
  C10_http_always_success (fun _ => envScanFail)
    [ ( "urls", PyVal.list [ PyVal.str "https://x.example" ] ) ]
    [ PyVal.str "https://x.example" ] rfl (by simp)
